import Mathlib

/-!
Shallow embedding of the on-demand image transformation pipeline
(`netlify/functions/images.ts`) and of its upload-side companion.
Byte payloads are abstract lists, JavaScript numbers are modelled as
integers-or-NaN, and the two blob stores are environment functions;
`Except.error` models a thrown exception.
-/

/-- Raw byte payloads, modelled as lists of naturals. -/
abbrev Bytes := List Nat

/-- A JavaScript number as this code can produce it: an integer, or NaN
(the result of `parseInt` on a non-numeric string). -/
inductive JSNum where
  | nan : JSNum
  | int : Int → JSNum
deriving DecidableEq, Repr

/-- JavaScript `parseInt(s, 10)`: skip leading whitespace, read an optional
sign, then the longest run of decimal digits; NaN when there are none. -/
def parseIntJS (s : String) : JSNum :=
  let cs := s.toList.dropWhile (fun c => c = ' ' || c = '\t' || c = '\n' || c = '\r')
  let signRest : Int × List Char :=
    match cs with
    | '-' :: r => (-1, r)
    | '+' :: r => (1, r)
    | r => (1, r)
  let digits := signRest.2.takeWhile Char.isDigit
  if digits.isEmpty then JSNum.nan
  else JSNum.int (signRest.1 * ((digits.foldl (fun a c => a * 10 + (c.toNat - 48)) 0 : Nat) : Int))

/-- JavaScript `Math.max` on our number model: NaN is absorbing. -/
def jsMax : JSNum → JSNum → JSNum
  | JSNum.nan, _ => JSNum.nan
  | _, JSNum.nan => JSNum.nan
  | JSNum.int a, JSNum.int b => JSNum.int (max a b)

/-- JavaScript `Math.min` on our number model: NaN is absorbing. -/
def jsMin : JSNum → JSNum → JSNum
  | JSNum.nan, _ => JSNum.nan
  | _, JSNum.nan => JSNum.nan
  | JSNum.int a, JSNum.int b => JSNum.int (min a b)

/-- JavaScript truthiness of an optional number: `undefined`, `0` and NaN
are falsy. -/
def truthyNum : Option JSNum → Bool
  | some (JSNum.int n) => !(n == 0)
  | _ => false

/-- JavaScript truthiness of a nullable string: `null` and `""` are falsy. -/
def truthyStr : Option String → Bool
  | some s => !(s == "")
  | none => false

/-- JavaScript `a || b` for a nullable string `a` and string default `b`. -/
def strOr (a : Option String) (b : String) : String :=
  match a with
  | some s => if s = "" then b else s
  | none => b

/-- JavaScript number-to-string coercion on our model. -/
def jsNumToString : JSNum → String
  | JSNum.nan => "NaN"
  | JSNum.int n => toString n

/-- Does `pat` occur as a contiguous run at the head of `l`? -/
def listLeads : List Char → List Char → Bool
  | [], _ => true
  | _ :: _, [] => false
  | a :: pa, b :: hb => a == b && listLeads pa hb

/-- Does `pat` occur contiguously anywhere inside `l`? -/
def listOccurs (pat : List Char) : List Char → Bool
  | [] => pat.isEmpty
  | b :: hb => listLeads pat (b :: hb) || listOccurs pat hb

/-- JavaScript `hay.includes(pat)` for strings. -/
def strIncludes (hay pat : String) : Bool := listOccurs pat.toList hay.toList

/-- The normalized transformation specification (`TransformOptions`,
lines 30–36 of `images.ts`). -/
structure TransformOptions where
  width : Option JSNum
  height : Option JSNum
  quality : JSNum
  format : Option String
  fit : String
deriving DecidableEq, Repr

/-- `FORMAT_MAP` (lines 14–20). -/
def FORMAT_MAP : String → Option String := fun f =>
  if f = "webp" then some "webp"
  else if f = "avif" then some "avif"
  else if f = "jpeg" then some "jpeg"
  else if f = "jpg" then some "jpeg"
  else if f = "png" then some "png"
  else none

/-- `CONTENT_TYPE_MAP` (lines 23–28). -/
def CONTENT_TYPE_MAP : String → Option String := fun f =>
  if f = "webp" then some "image/webp"
  else if f = "avif" then some "image/avif"
  else if f = "jpeg" then some "image/jpeg"
  else if f = "png" then some "image/png"
  else none

/-- `TRANSFORMABLE_TYPES` (lines 5–11). -/
def TRANSFORMABLE_TYPES : List String :=
  ["image/jpeg", "image/png", "image/gif", "image/webp", "image/avif"]

/-- The five valid `fit` values (lines 58–64). -/
def validFits : List String := ["cover", "contain", "fill", "inside", "outside"]

/-- `Math.min(Math.max(1, parseInt(s, 10)), hi)` — the clamp applied to the
`w`, `h` and `q` query parameters. -/
def clampParse (s : String) (hi : Int) : JSNum :=
  jsMin (jsMax (JSNum.int 1) (parseIntJS s)) (JSNum.int hi)

/-- `parseTransformOptions` (lines 38–87).  A query parameter map is a
function from names to `Option String`; `some ""` is an empty-valued
parameter, which JavaScript treats as falsy exactly like `null`. -/
def parseTransformOptions (params : String → Option String)
    (acceptHeader : Option String) : TransformOptions :=
  let width : Option JSNum :=
    match params "w" with
    | some s => if s = "" then none else some (clampParse s 2000)
    | none => none
  let height : Option JSNum :=
    match params "h" with
    | some s => if s = "" then none else some (clampParse s 2000)
    | none => none
  let quality : JSNum :=
    match params "q" with
    | some s => if s = "" then JSNum.int 80 else clampParse s 100
    | none => JSNum.int 80
  let fit : String :=
    match params "fit" with
    | some s => if validFits.contains s then s else "cover"
    | none => "cover"
  let format : Option String :=
    match params "f" with
    | some s =>
      if s = "" then
        match acceptHeader with
        | some a =>
          if strIncludes a "image/avif" then some "avif"
          else if strIncludes a "image/webp" then some "webp"
          else none
        | none => none
      else FORMAT_MAP s
    | none =>
      match acceptHeader with
      | some a =>
        if strIncludes a "image/avif" then some "avif"
        else if strIncludes a "image/webp" then some "webp"
        else none
      | none => none
  { width := width, height := height, quality := quality, format := format, fit := fit }

/-- JavaScript `Array.prototype.join("-")`. -/
def joinDash : List String → String
  | [] => ""
  | [a] => a
  | a :: b :: rest => a ++ "-" ++ joinDash (b :: rest)

/-- The template `${options.width || "auto"}`: a falsy width (`undefined`,
`0`, NaN) renders as `"auto"`. -/
def numOrAuto (w : Option JSNum) : String :=
  match w with
  | some (JSNum.int n) => if n = 0 then "auto" else toString n
  | _ => "auto"

/-- `generateCacheKey` (lines 89–108). -/
def generateCacheKey (originalKey : String) (options : TransformOptions) : String :=
  let parts := [originalKey]
  let parts :=
    if truthyNum options.width || truthyNum options.height then
      parts ++ [numOrAuto options.width ++ "x" ++ numOrAuto options.height]
    else parts
  let parts := parts ++ ["q" ++ jsNumToString options.quality]
  let parts := if truthyStr options.format then parts ++ [options.format.getD ""] else parts
  let parts := parts ++ [options.fit]
  "transformed/" ++ joinDash parts

/-- `needsTransformation` (lines 110–112). -/
def needsTransformation (options : TransformOptions) : Bool :=
  truthyNum options.width || truthyNum options.height || truthyStr options.format

/-- `getFormatFromContentType` (lines 354–363): the local map followed by
the `|| "jpeg"` fallback. -/
def getFormatFromContentType (contentType : String) : String :=
  if contentType = "image/jpeg" then "jpeg"
  else if contentType = "image/png" then "png"
  else if contentType = "image/webp" then "webp"
  else if contentType = "image/avif" then "avif"
  else if contentType = "image/gif" then "gif"
  else "jpeg"

/-- `options.format || getFormatFromContentType(contentType)` (line 275). -/
def resolveOutputFormat (options : TransformOptions) (contentType : String) : String :=
  strOr options.format (getFormatFromContentType contentType)

/-- `CONTENT_TYPE_MAP[outputFormat] || contentType` (line 277). -/
def resolveOutputContentType (outputFormat contentType : String) : String :=
  strOr (CONTENT_TYPE_MAP outputFormat) contentType

/-- JavaScript `Array.prototype.indexOf`: −1 when the element is absent. -/
def jsIndexOf (l : List String) (x : String) : Int :=
  match l.findIdx? (· == x) with
  | some i => (i : Int)
  | none => -1

/-- Split a character list at every occurrence of `c` (JavaScript
`split` semantics: an empty input yields one empty piece). -/
def splitOnChar (c : Char) : List Char → List (List Char)
  | [] => [[]]
  | x :: xs =>
    let r := splitOnChar c xs
    if x = c then [] :: r
    else
      match r with
      | [] => [[x]]
      | h :: t => (x :: h) :: t

/-- JavaScript `s.split(sep)` for a one-character separator. -/
def jsSplit (s : String) (sep : Char) : List String :=
  (splitOnChar sep s.toList).map (fun l => String.mk l)

/-- JavaScript `parts.join(sep)`. -/
def joinWith (sep : String) : List String → String
  | [] => ""
  | [a] => a
  | a :: b :: rest => a ++ sep ++ joinWith sep (b :: rest)

/-- Key extraction (lines 128–130): split the pathname on `/`, find the
`images` segment, and re-join everything after it. -/
def extractKey (pathname : String) : String :=
  let pathParts := jsSplit pathname '/'
  let keyIndex := jsIndexOf pathParts "images" + 1
  joinWith "/" (pathParts.drop keyIndex.toNat)

/-- A stored blob: payload plus the `contentType` metadata field. -/
structure Blob where
  bytes : Bytes
  contentType : Option String
deriving DecidableEq, Repr

/-- The blob-store operations a read invocation performs, in order.  The
Bool on `cacheSet` records whether the fire-and-forget write succeeded. -/
inductive Event where
  | cacheGet : String → Event
  | imageGet : String → Event
  | cacheSet : String → Bool → Event
deriving DecidableEq, Repr

/-- An HTTP response body: text or raw bytes. -/
inductive RespBody where
  | text : String → RespBody
  | bytes : Bytes → RespBody
deriving DecidableEq, Repr

/-- An HTTP response as the read handler builds it. -/
structure Response where
  status : Nat
  body : RespBody
  headers : List (String × String)
deriving DecidableEq, Repr

/-- `new Response("Not found", { status: 404 })`. -/
def notFoundResponse : Response :=
  { status := 404, body := RespBody.text "Not found", headers := [] }

/-- The headers common to every 200 response of the read path. -/
def baseHeaders (contentType : String) : List (String × String) :=
  [("Content-Type", contentType),
   ("Cache-Control", "public, max-age=31536000, immutable"),
   ("Access-Control-Allow-Origin", "*")]

/-- The cache-hit response (lines 191–199). -/
def hitResponse (contentType : String) (b : Bytes) : Response :=
  { status := 200, body := RespBody.bytes b,
    headers := baseHeaders contentType ++ [("X-Cache", "HIT")] }

/-- The pass-through response (lines 235–242 and 248–255 are identical). -/
def directResponse (contentType : String) (b : Bytes) : Response :=
  { status := 200, body := RespBody.bytes b, headers := baseHeaders contentType }

/-- The cache-miss transform response (lines 336–344). -/
def missResponse (contentType : String) (b : Bytes) : Response :=
  { status := 200, body := RespBody.bytes b,
    headers := baseHeaders contentType ++ [("X-Cache", "MISS")] }

/-- The environment one read invocation runs in: the request fields plus the
behaviour of the two blob stores and of the transform engine.  For a store
read, `Except.error` is a thrown exception and `Except.ok none` a missing
key; `transform` models `sharp(...).toBuffer()`, and `cacheSetOk` whether
the un-awaited cache write eventually succeeds. -/
structure Env where
  pathname : String
  params : String → Option String
  accept : Option String
  cacheFetch : String → Except Unit (Option Blob)
  imageFetch : String → Except Unit (Option Blob)
  transform : Bytes → TransformOptions → String → Except Unit Bytes
  cacheSetOk : Bool

/-- The read path after the optional cache probe (lines 207–344): fetch the
original, serve it directly when it is non-transformable or no
transformation is needed, otherwise transform, fire the cache write without
awaiting it, and answer.  A thrown store or transform error falls to the
top-level catch (lines 345–351), which answers 404 `Not found`. -/
def serveAfterCache (env : Env) (key : String) (options : TransformOptions)
    (ev0 : List Event) : Response × List Event :=
  match env.imageFetch key with
  | Except.error _ => (notFoundResponse, ev0 ++ [Event.imageGet key])
  | Except.ok none => (notFoundResponse, ev0 ++ [Event.imageGet key])
  | Except.ok (some blob) =>
    let ev := ev0 ++ [Event.imageGet key]
    let contentType := strOr blob.contentType "image/jpeg"
    if !(TRANSFORMABLE_TYPES.contains contentType) then
      (directResponse contentType blob.bytes, ev)
    else if !(needsTransformation options) then
      (directResponse contentType blob.bytes, ev)
    else
      let cacheKey := generateCacheKey key options
      match env.transform blob.bytes options contentType with
      | Except.error _ => (notFoundResponse, ev)
      | Except.ok tb =>
        let outputFormat := resolveOutputFormat options contentType
        let outputContentType := resolveOutputContentType outputFormat contentType
        (missResponse outputContentType tb, ev ++ [Event.cacheSet cacheKey env.cacheSetOk])

/-- The read-path request handler (`export default`, lines 114–352). -/
def serveImage (env : Env) : Response × List Event :=
  let key := extractKey env.pathname
  if key = "" then (notFoundResponse, [])
  else
    let options := parseTransformOptions env.params env.accept
    if needsTransformation options then
      let cacheKey := generateCacheKey key options
      match env.cacheFetch cacheKey with
      | Except.error _ => serveAfterCache env key options [Event.cacheGet cacheKey]
      | Except.ok (some blob) =>
        (hitResponse (strOr blob.contentType "image/jpeg") blob.bytes,
         [Event.cacheGet cacheKey])
      | Except.ok none => serveAfterCache env key options [Event.cacheGet cacheKey]
    else serveAfterCache env key options []

/-- `MAX_IMAGE_SIZE` of the upload function: 5 MB. -/
def MAX_IMAGE_SIZE : Nat := 5 * 1024 * 1024

/-- `MAX_VIDEO_SIZE` of the upload function: 100 MB. -/
def MAX_VIDEO_SIZE : Nat := 100 * 1024 * 1024

/-- `ALLOWED_IMAGE_TYPES` of the upload function. -/
def ALLOWED_IMAGE_TYPES : List String :=
  ["image/jpeg", "image/png", "image/gif", "image/webp"]

/-- `ALLOWED_VIDEO_TYPES` of the upload function. -/
def ALLOWED_VIDEO_TYPES : List String :=
  ["video/mp4", "video/webm", "video/quicktime", "video/x-m4v"]

/-- `ALLOWED_TYPES` of the upload function. -/
def ALLOWED_TYPES : List String := ALLOWED_IMAGE_TYPES ++ ALLOWED_VIDEO_TYPES

/-- `MAX_DIMENSION` of the upload function. -/
def MAX_DIMENSION : Nat := 2000

/-- `UPLOAD_QUALITY` of the upload function. -/
def UPLOAD_QUALITY : Nat := 85

/-- An uploaded file: name, declared MIME type, size and payload. -/
structure UploadFile where
  name : String
  type : String
  size : Nat
  bytes : Bytes
deriving DecidableEq, Repr

/-- What the upload handler persists: either raw pass-through bytes, or —
symbolically — the sharp pipeline `resize(maxDim, maxDim, fit: "inside",
withoutEnlargement: true).webp({ quality })` applied to the source bytes. -/
inductive StoredContent where
  | raw : Bytes → StoredContent
  | optimizedWebp : Bytes → Nat → Nat → StoredContent
deriving DecidableEq, Repr

/-- One `store.set` call of the upload handler, with its metadata. -/
structure StoreWrite where
  key : String
  content : StoredContent
  contentType : String
  originalName : String
deriving DecidableEq, Repr

/-- Upload-response bodies, abstracting the `JSON.stringify` payloads. -/
inductive UploadBody where
  | empty : UploadBody
  | errorMsg : String → UploadBody
  | success : String → String → UploadBody
deriving DecidableEq, Repr

/-- An upload response: status plus body. -/
structure UploadResponse where
  status : Nat
  body : UploadBody
deriving DecidableEq, Repr

/-- An upload request, with the timestamp and random id the handler draws. -/
structure UploadReq where
  method : String
  file : Option UploadFile
  timestamp : Nat
  randomId : String

/-- `file.name.split(".").pop() || (isVideo ? "mp4" : "jpg")` of the upload
handler: `pop` on the result of `split` yields the last piece, which is
empty exactly when the name is empty or ends in a dot. -/
def derivedExt (name : String) (isVideo : Bool) : String :=
  let e := (jsSplit name '.').getLastD ""
  if e = "" then (if isVideo then "mp4" else "jpg") else e

/-- The upload handler (`export default` of the upload function): CORS
preflight, method check, file presence, type allow-list, size ceiling, then
optimize-or-pass-through and a single store write. -/
def uploadHandler (req : UploadReq) : UploadResponse × List StoreWrite :=
  if req.method = "OPTIONS" then ({ status := 204, body := UploadBody.empty }, [])
  else if req.method ≠ "POST" then
    ({ status := 405, body := UploadBody.errorMsg "Method not allowed" }, [])
  else
    match req.file with
    | none => ({ status := 400, body := UploadBody.errorMsg "No file provided" }, [])
    | some file =>
      if !(ALLOWED_TYPES.contains file.type) then
        ({ status := 400,
           body := UploadBody.errorMsg
             "Invalid file type. Allowed: JPEG, PNG, GIF, WebP, MP4, WebM, MOV" }, [])
      else
        let isVideo := ALLOWED_VIDEO_TYPES.contains file.type
        let maxSize := if isVideo then MAX_VIDEO_SIZE else MAX_IMAGE_SIZE
        if file.size > maxSize then
          ({ status := 400,
             body := UploadBody.errorMsg
               (if isVideo then "File too large. Maximum size is 100MB"
                else "File too large. Maximum size is 5MB") }, [])
        else
          let isImage := ALLOWED_IMAGE_TYPES.contains file.type
          let stored :=
            if isImage && !(file.type == "image/gif") then
              (StoredContent.optimizedWebp file.bytes MAX_DIMENSION UPLOAD_QUALITY,
               "image/webp", "webp")
            else
              (StoredContent.raw file.bytes, file.type, derivedExt file.name isVideo)
          let key := "uploads/" ++ toString req.timestamp ++ "-" ++ req.randomId ++ "." ++ stored.2.2
          ({ status := 201, body := UploadBody.success ("/images/" ++ key) key },
           [{ key := key, content := stored.1, contentType := stored.2.1,
              originalName := file.name }])

/-- Modelled from the spec: the sharp library is not part of this
repository's sources; per the spec, upload-side optimization is "resized to
fit within a maximum dimension (2000px) without upscaling".  Output
dimensions of `resize(maxW, maxH, fit: "inside", withoutEnlargement:
true)`: an image already within bounds is untouched, otherwise it is shrunk
proportionally so that it just fits the bounding box. -/
def resizeInsideDims (ow oh maxW maxH : Nat) : Nat × Nat :=
  if ow ≤ maxW ∧ oh ≤ maxH then (ow, oh)
  else if oh * maxW ≤ ow * maxH then (maxW, oh * maxW / ow)
  else (ow * maxH / oh, maxH)

/-- The resize invocation the read handler builds (lines 266–272 of
`images.ts`): present exactly when a width or height survived parsing,
always with `withoutEnlargement: true` and the parsed fit. -/
structure ResizePlan where
  width : Option JSNum
  height : Option JSNum
  fit : String
  withoutEnlargement : Bool
deriving Repr

/-- Lines 266–272: `transformer.resize(options.width, options.height,
{ fit: options.fit, withoutEnlargement: true })`, issued only when a width
or height is set. -/
def buildResizePlan (options : TransformOptions) : Option ResizePlan :=
  if truthyNum options.width || truthyNum options.height then
    some { width := options.width, height := options.height,
           fit := options.fit, withoutEnlargement := true }
  else none

/-- Modelled from the spec: target dimensions of a sharp resize — a missing
axis follows the source aspect ratio. -/
def planTargetDims (p : ResizePlan) (ow oh : Nat) : Nat × Nat :=
  match p.width, p.height with
  | some (JSNum.int w), some (JSNum.int h) => (w.toNat, h.toNat)
  | some (JSNum.int w), _ => (w.toNat, if ow = 0 then oh else oh * w.toNat / ow)
  | _, some (JSNum.int h) => ((if oh = 0 then ow else ow * h.toNat / oh), h.toNat)
  | _, _ => (ow, oh)

/-- Modelled from the spec: output dimensions of sharp `resize` under a
plan — with `withoutEnlargement` the spec says enlargement is disabled,
"never upscaling beyond original dimensions", so each axis is capped at the
original. -/
def sharpResizeDims (p : ResizePlan) (ow oh : Nat) : Nat × Nat :=
  let t := planTargetDims p ow oh
  if p.withoutEnlargement then (min t.1 ow, min t.2 oh) else t

/-- Query map of a request carrying `w=abc&q=abc` (non-numeric values). -/
def pInvalid : String → Option String := fun k =>
  if k = "w" then some "abc" else if k = "q" then some "abc" else none

/-- Query map of a request carrying `w=5000`. -/
def pW5000 : String → Option String := fun k => if k = "w" then some "5000" else none

/-- Query map of a request carrying `w=100`. -/
def pW100 : String → Option String := fun k => if k = "w" then some "100" else none

/-- Query map of a request carrying `f=` (present but empty). -/
def pFEmpty : String → Option String := fun k => if k = "f" then some "" else none

/-- Query map of a request carrying `f=bmp` (present, unrecognized). -/
def pFBmp : String → Option String := fun k => if k = "f" then some "bmp" else none

/-- A one-byte stored JPEG original. -/
def blob7 : Blob := { bytes := [7], contentType := some "image/jpeg" }

/-- A concrete environment: `GET /images/uploads/a.jpg?w=100`, cold cache,
original present, transform succeeding. -/
def envT : Env :=
  { pathname := "/images/uploads/a.jpg", params := pW100, accept := none,
    cacheFetch := fun _ => Except.ok none,
    imageFetch := fun _ => Except.ok (some blob7),
    transform := fun _ _ _ => Except.ok [9],
    cacheSetOk := true }

/-- A concrete environment whose pathname yields an empty extracted key. -/
def envEmptyKey : Env :=
  { pathname := "/images/", params := fun _ => none, accept := none,
    cacheFetch := fun _ => Except.ok none, imageFetch := fun _ => Except.ok none,
    transform := fun _ _ _ => Except.error (), cacheSetOk := true }

/-- A concrete environment: `GET /images/uploads/missing.jpg` with no
query parameters, where the original is absent from the images store. -/
def envMissing : Env :=
  { pathname := "/images/uploads/missing.jpg", params := fun _ => none, accept := none,
    cacheFetch := fun _ => Except.ok none, imageFetch := fun _ => Except.ok none,
    transform := fun _ _ _ => Except.error (), cacheSetOk := true }

/-- A concrete environment: `GET /images/uploads/a.jpg?f=bmp` with
`Accept: image/avif`, original present. -/
def envFBmp : Env :=
  { pathname := "/images/uploads/a.jpg", params := pFBmp, accept := some "image/avif",
    cacheFetch := fun _ => Except.ok none,
    imageFetch := fun _ => Except.ok (some blob7),
    transform := fun _ _ _ => Except.error (), cacheSetOk := true }

/-- Parsed options of a bare `w=500` request. -/
def oW500 : TransformOptions :=
  { width := some (JSNum.int 500), height := none, quality := JSNum.int 80,
    format := none, fit := "cover" }

/-- Parsed options of a request with no parameters and no Accept header. -/
def oNoFormat : TransformOptions :=
  { width := none, height := none, quality := JSNum.int 80, format := none, fit := "cover" }

/-- A small valid PNG upload. -/
def fileP : UploadFile :=
  { name := "photo.png", type := "image/png", size := 1000, bytes := [1, 2, 3] }

/-- A POST request uploading `fileP`. -/
def reqP : UploadReq :=
  { method := "POST", file := some fileP, timestamp := 1, randomId := "abc12345" }

/-- A PDF upload (type outside the allow-list). -/
def filePdf : UploadFile :=
  { name := "doc.pdf", type := "application/pdf", size := 1000, bytes := [1] }

/-- A POST request uploading `filePdf`. -/
def reqPdf : UploadReq :=
  { method := "POST", file := some filePdf, timestamp := 1, randomId := "zzz" }


lemma serveAfterCache_trace_ext (env : Env) (key : String) (o : TransformOptions)
    (ev : List Event) : ∃ t, (serveAfterCache env key o ev).2 = ev ++ t := by
  unfold serveAfterCache
  rcases henv : env.imageFetch key with e | ob
  · exact ⟨[Event.imageGet key], rfl⟩
  · rcases ob with _ | blob
    · exact ⟨[Event.imageGet key], rfl⟩
    · by_cases h1 : strOr blob.contentType "image/jpeg" ∈ TRANSFORMABLE_TYPES
      · by_cases h2 : needsTransformation o = true
        · rcases htr : env.transform blob.bytes o (strOr blob.contentType "image/jpeg") with e | tb
          · exact ⟨[Event.imageGet key], by simp [h1, h2, htr]⟩
          · exact ⟨[Event.imageGet key, Event.cacheSet (generateCacheKey key o) env.cacheSetOk],
              by simp [h1, h2, htr]⟩
        · exact ⟨[Event.imageGet key], by simp [h1, h2]⟩
      · exact ⟨[Event.imageGet key], by simp [h1]⟩

lemma serveAfterCache_status (env : Env) (key : String) (o : TransformOptions)
    (ev : List Event) :
    (serveAfterCache env key o ev).1.status = 200 ∨
      (serveAfterCache env key o ev).1 = notFoundResponse := by
  unfold serveAfterCache
  rcases henv : env.imageFetch key with e | ob
  · exact Or.inr rfl
  · rcases ob with _ | blob
    · exact Or.inr rfl
    · by_cases h1 : strOr blob.contentType "image/jpeg" ∈ TRANSFORMABLE_TYPES
      · by_cases h2 : needsTransformation o = true
        · rcases htr : env.transform blob.bytes o (strOr blob.contentType "image/jpeg") with e | tb
          · refine Or.inr ?_
            simp [h1, h2, htr]
          · refine Or.inl ?_
            simp [h1, h2, htr, missResponse]
        · refine Or.inl ?_
          simp [h1, h2, directResponse]
      · refine Or.inl ?_
        simp [h1, directResponse]

lemma serveAfterCache_fst_setOk (env : Env) (key : String) (o : TransformOptions)
    (ev : List Event) (b : Bool) :
    (serveAfterCache { env with cacheSetOk := b } key o ev).1 =
      (serveAfterCache env key o ev).1 := by
  unfold serveAfterCache
  rcases henv : env.imageFetch key with e | ob
  · rfl
  · rcases ob with _ | blob
    · rfl
    · by_cases h1 : strOr blob.contentType "image/jpeg" ∈ TRANSFORMABLE_TYPES
      · by_cases h2 : needsTransformation o = true
        · rcases htr : env.transform blob.bytes o (strOr blob.contentType "image/jpeg") with e | tb
          · simp [h1, h2, htr]
          · simp [h1, h2, htr]
        · simp [h1, h2]
      · simp [h1]

lemma serveAfterCache_noTransform (env : Env) (key : String) (o : TransformOptions)
    (ev : List Event) (h : needsTransformation o = false) :
    (serveAfterCache env key o ev).2 = ev ++ [Event.imageGet key] ∧
      ∀ blob, env.imageFetch key = Except.ok (some blob) →
        (serveAfterCache env key o ev).1 =
          directResponse (strOr blob.contentType "image/jpeg") blob.bytes := by
  unfold serveAfterCache
  rcases henv : env.imageFetch key with e | ob
  · exact ⟨rfl, by intro blob hb; cases hb⟩
  · rcases ob with _ | blob
    · exact ⟨rfl, by intro blob hb; cases hb⟩
    · constructor
      · by_cases h1 : strOr blob.contentType "image/jpeg" ∈ TRANSFORMABLE_TYPES
        · simp [h1, h]
        · simp [h1]
      · intro blob2 hb
        have hbe : blob2 = blob := by simpa using hb.symm
        subst hbe
        by_cases h1 : strOr blob2.contentType "image/jpeg" ∈ TRANSFORMABLE_TYPES
        · simp [h1, h]
        · simp [h1]

lemma serveAfterCache_miss (env : Env) (key : String) (o : TransformOptions)
    (ev : List Event) (blob : Blob) (tb : Bytes)
    (h : needsTransformation o = true)
    (hi : env.imageFetch key = Except.ok (some blob))
    (hct : strOr blob.contentType "image/jpeg" ∈ TRANSFORMABLE_TYPES)
    (htr : env.transform blob.bytes o (strOr blob.contentType "image/jpeg") = Except.ok tb) :
    (serveAfterCache env key o ev).1 =
      missResponse
        (resolveOutputContentType
          (resolveOutputFormat o (strOr blob.contentType "image/jpeg"))
          (strOr blob.contentType "image/jpeg")) tb ∧
    (serveAfterCache env key o ev).2 =
      ev ++ [Event.imageGet key,
             Event.cacheSet (generateCacheKey key o) env.cacheSetOk] := by
  unfold serveAfterCache
  rw [hi]
  simp [hct, h, htr]

lemma serveImage_status (env : Env) :
    (serveImage env).1.status = 200 ∨ (serveImage env).1 = notFoundResponse := by
  by_cases hk : extractKey env.pathname = ""
  · simp [serveImage, hk]
  · by_cases hn : needsTransformation (parseTransformOptions env.params env.accept) = true
    · rcases hc : env.cacheFetch (generateCacheKey (extractKey env.pathname)
          (parseTransformOptions env.params env.accept)) with e | ob
      · have h := serveAfterCache_status env (extractKey env.pathname)
          (parseTransformOptions env.params env.accept)
          [Event.cacheGet (generateCacheKey (extractKey env.pathname)
            (parseTransformOptions env.params env.accept))]
        simpa [serveImage, hk, hn, hc] using h
      · rcases ob with _ | blob
        · have h := serveAfterCache_status env (extractKey env.pathname)
            (parseTransformOptions env.params env.accept)
            [Event.cacheGet (generateCacheKey (extractKey env.pathname)
              (parseTransformOptions env.params env.accept))]
          simpa [serveImage, hk, hn, hc] using h
        · refine Or.inl ?_
          simp [serveImage, hk, hn, hc, hitResponse]
    · have hn' : needsTransformation (parseTransformOptions env.params env.accept) = false := by
        simpa using hn
      have h := serveAfterCache_status env (extractKey env.pathname)
        (parseTransformOptions env.params env.accept) []
      simpa [serveImage, hk, hn'] using h

lemma serveImage_noTransform (env : Env)
    (hk : ¬ extractKey env.pathname = "")
    (h : needsTransformation (parseTransformOptions env.params env.accept) = false) :
    (serveImage env).2 = [Event.imageGet (extractKey env.pathname)] ∧
      ∀ blob, env.imageFetch (extractKey env.pathname) = Except.ok (some blob) →
        (serveImage env).1 = directResponse (strOr blob.contentType "image/jpeg") blob.bytes := by
  have hserve : serveImage env = serveAfterCache env (extractKey env.pathname)
      (parseTransformOptions env.params env.accept) [] := by
    simp [serveImage, hk, h]
  have h2 := serveAfterCache_noTransform env (extractKey env.pathname)
    (parseTransformOptions env.params env.accept) [] h
  rw [hserve]
  simpa using h2

lemma serveImage_trace_cacheFirst (env : Env)
    (hk : ¬ extractKey env.pathname = "")
    (hn : needsTransformation (parseTransformOptions env.params env.accept) = true) :
    ∃ rest, (serveImage env).2 =
      Event.cacheGet (generateCacheKey (extractKey env.pathname)
        (parseTransformOptions env.params env.accept)) :: rest := by
  rcases hc : env.cacheFetch (generateCacheKey (extractKey env.pathname)
      (parseTransformOptions env.params env.accept)) with e | ob
  · have hserve : serveImage env = serveAfterCache env (extractKey env.pathname)
        (parseTransformOptions env.params env.accept)
        [Event.cacheGet (generateCacheKey (extractKey env.pathname)
          (parseTransformOptions env.params env.accept))] := by
      simp [serveImage, hk, hn, hc]
    obtain ⟨t, ht⟩ := serveAfterCache_trace_ext env (extractKey env.pathname)
      (parseTransformOptions env.params env.accept)
      [Event.cacheGet (generateCacheKey (extractKey env.pathname)
        (parseTransformOptions env.params env.accept))]
    refine ⟨t, ?_⟩
    rw [hserve, ht]
    simp
  · rcases ob with _ | blob
    · have hserve : serveImage env = serveAfterCache env (extractKey env.pathname)
          (parseTransformOptions env.params env.accept)
          [Event.cacheGet (generateCacheKey (extractKey env.pathname)
            (parseTransformOptions env.params env.accept))] := by
        simp [serveImage, hk, hn, hc]
      obtain ⟨t, ht⟩ := serveAfterCache_trace_ext env (extractKey env.pathname)
        (parseTransformOptions env.params env.accept)
        [Event.cacheGet (generateCacheKey (extractKey env.pathname)
          (parseTransformOptions env.params env.accept))]
      refine ⟨t, ?_⟩
      rw [hserve, ht]
      simp
    · refine ⟨[], ?_⟩
      simp [serveImage, hk, hn, hc]

/-- C4: `generateCacheKey` is pure and deterministic (it is a function of
its two arguments alone), and for every original key and spec its value is
`transformed/` + key, then `-<w|auto>x<h|auto>` only if width or height is
set (JavaScript-truthy), then `-q<quality>` always, then `-<format>` only
if format is set, then `-<fit>` always. -/
theorem generateCacheKey_shape (k : String) (o : TransformOptions) :
    generateCacheKey k o =
      "transformed/" ++ k
        ++ (if truthyNum o.width || truthyNum o.height then
              "-" ++ (numOrAuto o.width ++ "x" ++ numOrAuto o.height) else "")
        ++ ("-q" ++ jsNumToString o.quality)
        ++ (if truthyStr o.format then "-" ++ o.format.getD "" else "")
        ++ ("-" ++ o.fit) := by
  have hqX : ∀ s : String, "-" ++ ("q" ++ s) = "-q" ++ s := by
    intro s
    rw [← String.append_assoc]
    rfl
  by_cases h1 : (truthyNum o.width || truthyNum o.height) = true
  · by_cases h2 : truthyStr o.format = true
    · simp [generateCacheKey, h1, h2, joinDash, String.append_assoc]
      rw [hqX]
    · simp [generateCacheKey, h1, h2, joinDash, String.append_assoc]
      rw [hqX]
  · by_cases h2 : truthyStr o.format = true
    · simp [generateCacheKey, h1, h2, joinDash, String.append_assoc]
      rw [hqX]
    · simp [generateCacheKey, h1, h2, joinDash, String.append_assoc]
      rw [hqX]

/-- C5 counterexample: with no explicit format, a stored original of content
type `image/gif` resolves to output format `"gif"`, not `"jpeg"` — the
code's map sends `image/gif` to `"gif"`; `"jpeg"` is only the fallback for
content types outside the map. -/
theorem gif_resolves_to_gif_counterexample :
    resolveOutputFormat oNoFormat "image/gif" = "gif" ∧
      ¬ resolveOutputFormat oNoFormat "image/gif" = "jpeg" := by
  constructor
  · rfl
  · decide

/-- C5 amended: when the spec has no (truthy) format, the output format is
`getFormatFromContentType` of the source content type, whose map is
jpeg→jpeg, png→png, webp→webp, avif→avif, gif→gif, with `"jpeg"` as the
fallback for unmapped content types. -/
theorem format_resolution_amended (o : TransformOptions) (ct : String)
    (h : truthyStr o.format = false) :
    resolveOutputFormat o ct = getFormatFromContentType ct ∧
    getFormatFromContentType "image/gif" = "gif" ∧
    (ct ∉ ["image/jpeg", "image/png", "image/webp", "image/avif", "image/gif"] →
      getFormatFromContentType ct = "jpeg") := by
  refine ⟨?_, rfl, ?_⟩
  · rcases hf : o.format with _ | s
    · simp [resolveOutputFormat, strOr, hf]
    · have hs : s = "" := by
        rw [hf] at h
        simpa [truthyStr] using h
      simp [resolveOutputFormat, strOr, hf, hs]
  · intro hmem
    simp only [List.mem_cons, List.not_mem_nil, or_false, not_or] at hmem
    obtain ⟨n1, n2, n3, n4, n5⟩ := hmem
    simp [getFormatFromContentType, n1, n2, n3, n4, n5]

/-- C5 witness: a content type outside the map falls back to jpeg. -/
theorem format_resolution_witness :
    resolveOutputFormat oNoFormat "image/bmp" = "jpeg" := by
  have h := format_resolution_amended oNoFormat "image/bmp" (by decide)
  rw [h.1]
  exact h.2.2 (by decide)

/-- C8: whenever a parsed width or height is set, the read handler's resize
call carries `withoutEnlargement: true`, and (sharp semantics modelled from
the spec) the output dimensions never exceed the original's. -/
theorem resize_disables_enlargement (o : TransformOptions) (ow oh : Nat)
    (h : (truthyNum o.width || truthyNum o.height) = true) :
    ∃ p, buildResizePlan o = some p ∧ p.withoutEnlargement = true ∧
      (sharpResizeDims p ow oh).1 ≤ ow ∧ (sharpResizeDims p ow oh).2 ≤ oh := by
  refine ⟨{ width := o.width, height := o.height, fit := o.fit,
            withoutEnlargement := true }, ?_, rfl, ?_, ?_⟩
  · simp [buildResizePlan, h]
  · simp only [sharpResizeDims, if_pos]
    exact min_le_right _ _
  · simp only [sharpResizeDims, if_pos]
    exact min_le_right _ _

/-- C8 witness: a 100×100 source requested at `w=500` yields an output no
wider (and no taller) than 100. -/
theorem resize_disables_enlargement_witness :
    ∃ p, buildResizePlan oW500 = some p ∧ p.withoutEnlargement = true ∧
      (sharpResizeDims p 100 100).1 ≤ 100 ∧ (sharpResizeDims p 100 100).2 ≤ 100 :=
  resize_disables_enlargement oW500 100 100 (by decide)

/-- C1 counterexample: for the query `w=abc&q=abc` the parser yields width
NaN (not undefined) and quality NaN (not the default 80): a present but
non-numeric parameter flows through `parseInt` as NaN, which the clamp
preserves. -/
theorem parse_invalid_counterexample :
    (parseTransformOptions pInvalid none).width = some JSNum.nan ∧
    ¬ (parseTransformOptions pInvalid none).width = none ∧
    (parseTransformOptions pInvalid none).quality = JSNum.nan ∧
    ¬ (parseTransformOptions pInvalid none).quality = JSNum.int 80 := by
  refine ⟨?_, ?_, ?_, ?_⟩ <;> decide

/-- C1 amended: `parseTransformOptions` is total by construction and: an
absent or empty `w` gives no width; a `w` that parses to an integer gives a
width clamped into [1, 2000]; a non-empty `w` that does not parse gives
width NaN (not undefined).  Likewise for `h`.  An absent or empty `q` gives
quality 80; an integer `q` is clamped into [1, 100]; a non-empty
non-numeric `q` gives quality NaN (not 80).  The fit is always one of the
five enumerated values, and any other supplied fit resolves to "cover". -/
theorem parse_clamps_amended (params : String → Option String)
    (accept : Option String) :
    ((params "w" = none ∨ params "w" = some "") →
      (parseTransformOptions params accept).width = none) ∧
    (∀ s n, params "w" = some s → ¬ s = "" → parseIntJS s = JSNum.int n →
      (parseTransformOptions params accept).width =
        some (JSNum.int (min (max 1 n) 2000)) ∧
      1 ≤ min (max 1 n) 2000 ∧ min (max 1 n) 2000 ≤ 2000) ∧
    (∀ s, params "w" = some s → ¬ s = "" → parseIntJS s = JSNum.nan →
      (parseTransformOptions params accept).width = some JSNum.nan) ∧
    ((params "h" = none ∨ params "h" = some "") →
      (parseTransformOptions params accept).height = none) ∧
    (∀ s n, params "h" = some s → ¬ s = "" → parseIntJS s = JSNum.int n →
      (parseTransformOptions params accept).height =
        some (JSNum.int (min (max 1 n) 2000)) ∧
      1 ≤ min (max 1 n) 2000 ∧ min (max 1 n) 2000 ≤ 2000) ∧
    (∀ s, params "h" = some s → ¬ s = "" → parseIntJS s = JSNum.nan →
      (parseTransformOptions params accept).height = some JSNum.nan) ∧
    ((params "q" = none ∨ params "q" = some "") →
      (parseTransformOptions params accept).quality = JSNum.int 80) ∧
    (∀ s n, params "q" = some s → ¬ s = "" → parseIntJS s = JSNum.int n →
      (parseTransformOptions params accept).quality =
        JSNum.int (min (max 1 n) 100) ∧
      1 ≤ min (max 1 n) 100 ∧ min (max 1 n) 100 ≤ 100) ∧
    (∀ s, params "q" = some s → ¬ s = "" → parseIntJS s = JSNum.nan →
      (parseTransformOptions params accept).quality = JSNum.nan) ∧
    (parseTransformOptions params accept).fit ∈ validFits ∧
    (∀ s, params "fit" = some s → s ∉ validFits →
      (parseTransformOptions params accept).fit = "cover") := by
  refine ⟨?_, ?_, ?_, ?_, ?_, ?_, ?_, ?_, ?_, ?_, ?_⟩
  · rintro (h | h) <;> simp [parseTransformOptions, h]
  · intro s n hw hs hn
    refine ⟨?_, le_min (le_max_left 1 n) (by norm_num), min_le_right _ _⟩
    simp [parseTransformOptions, hw, hs, clampParse, hn, jsMax, jsMin]
  · intro s hw hs hn
    simp [parseTransformOptions, hw, hs, clampParse, hn, jsMax, jsMin]
  · rintro (h | h) <;> simp [parseTransformOptions, h]
  · intro s n hw hs hn
    refine ⟨?_, le_min (le_max_left 1 n) (by norm_num), min_le_right _ _⟩
    simp [parseTransformOptions, hw, hs, clampParse, hn, jsMax, jsMin]
  · intro s hw hs hn
    simp [parseTransformOptions, hw, hs, clampParse, hn, jsMax, jsMin]
  · rintro (h | h) <;> simp [parseTransformOptions, h]
  · intro s n hw hs hn
    refine ⟨?_, le_min (le_max_left 1 n) (by norm_num), min_le_right _ _⟩
    simp [parseTransformOptions, hw, hs, clampParse, hn, jsMax, jsMin]
  · intro s hw hs hn
    simp [parseTransformOptions, hw, hs, clampParse, hn, jsMax, jsMin]
  · rcases hf : params "fit" with _ | s
    · simp [parseTransformOptions, hf, validFits]
    · by_cases hm : s ∈ validFits
      · have hfit : (parseTransformOptions params accept).fit = s := by
          simp [parseTransformOptions, hf, hm]
        rw [hfit]
        exact hm
      · have hfit : (parseTransformOptions params accept).fit = "cover" := by
          simp [parseTransformOptions, hf, hm]
        rw [hfit]
        simp [validFits]
  · intro s hf hnot
    simp [parseTransformOptions, hf, hnot]

/-- C1 witness: `w=5000` clamps to width 2000; with `q` absent the quality
defaults to 80. -/
theorem parse_clamps_witness :
    (parseTransformOptions pW5000 none).width = some (JSNum.int 2000) ∧
    (parseTransformOptions pW5000 none).quality = JSNum.int 80 := by
  have h := parse_clamps_amended pW5000 none
  constructor
  · have h2 := (h.2.1 "5000" 5000 (by decide) (by decide) (by decide)).1
    have e : min (max (1 : Int) 5000) 2000 = 2000 := by decide
    rw [e] at h2
    exact h2
  · exact h.2.2.2.2.2.2.1 (Or.inl (by decide))

/-- C10 counterexample: with `f=` present-but-empty and `Accept:
image/avif`, the parser does fall back to Accept negotiation — format
becomes `avif` and the request is classified as needing transformation. -/
theorem empty_format_counterexample :
    (parseTransformOptions pFEmpty (some "image/avif")).format = some "avif" ∧
    ¬ (parseTransformOptions pFEmpty (some "image/avif")).format = none ∧
    needsTransformation (parseTransformOptions pFEmpty (some "image/avif")) = true := by
  refine ⟨?_, ?_, ?_⟩ <;> decide

/-- C10 amended: for `f` present, NON-EMPTY and unrecognized, format stays
undefined with no Accept fallback; if additionally no width or height
survives parsing, the request needs no transformation and, when the
original exists, is served as the original bytes in the original content
type. -/
theorem unknown_format_inert (params : String → Option String)
    (accept : Option String) (s : String)
    (hf : params "f" = some s) (hs : ¬ s = "") (hu : FORMAT_MAP s = none) :
    (parseTransformOptions params accept).format = none ∧
    ((truthyNum (parseTransformOptions params accept).width = false ∧
      truthyNum (parseTransformOptions params accept).height = false) →
      needsTransformation (parseTransformOptions params accept) = false) ∧
    (∀ env : Env, env.params = params → env.accept = accept →
      ¬ extractKey env.pathname = "" →
      truthyNum (parseTransformOptions params accept).width = false →
      truthyNum (parseTransformOptions params accept).height = false →
      ∀ blob, env.imageFetch (extractKey env.pathname) = Except.ok (some blob) →
        (serveImage env).1 =
          directResponse (strOr blob.contentType "image/jpeg") blob.bytes) := by
  have hfmt : (parseTransformOptions params accept).format = none := by
    simp [parseTransformOptions, hf, hs, hu]
  refine ⟨hfmt, ?_, ?_⟩
  · rintro ⟨h1, h2⟩
    simp [needsTransformation, h1, h2, hfmt, truthyStr]
  · intro env hp ha hk h1 h2 blob hb
    have hneed : needsTransformation (parseTransformOptions env.params env.accept) = false := by
      rw [hp, ha]
      simp [needsTransformation, h1, h2, hfmt, truthyStr]
    exact (serveImage_noTransform env hk hneed).2 blob hb

/-- C10 witness: `GET /images/uploads/a.jpg?f=bmp` with `Accept: image/avif`
serves the stored original bytes with the stored content type. -/
theorem unknown_format_inert_witness :
    (serveImage envFBmp).1 = directResponse "image/jpeg" [7] := by
  have h := unknown_format_inert pFBmp (some "image/avif") "bmp"
    (by decide) (by decide) (by decide)
  have h2 := h.2.2 envFBmp rfl rfl (by decide) (by decide) (by decide) blob7 rfl
  have e : strOr blob7.contentType "image/jpeg" = "image/jpeg" := by decide
  rw [e] at h2
  exact h2

lemma serveImage_fst_setOk (env : Env) (b : Bool) :
    (serveImage { env with cacheSetOk := b }).1 = (serveImage env).1 := by
  by_cases hk : extractKey env.pathname = ""
  · simp [serveImage, hk]
  · by_cases hn : needsTransformation (parseTransformOptions env.params env.accept) = true
    · rcases hc : env.cacheFetch (generateCacheKey (extractKey env.pathname)
          (parseTransformOptions env.params env.accept)) with e | ob
      · have h := serveAfterCache_fst_setOk env (extractKey env.pathname)
          (parseTransformOptions env.params env.accept)
          [Event.cacheGet (generateCacheKey (extractKey env.pathname)
            (parseTransformOptions env.params env.accept))] b
        simpa [serveImage, hk, hn, hc] using h
      · rcases ob with _ | blob
        · have h := serveAfterCache_fst_setOk env (extractKey env.pathname)
            (parseTransformOptions env.params env.accept)
            [Event.cacheGet (generateCacheKey (extractKey env.pathname)
              (parseTransformOptions env.params env.accept))] b
          simpa [serveImage, hk, hn, hc] using h
        · simp [serveImage, hk, hn, hc]
    · have hn' : needsTransformation (parseTransformOptions env.params env.accept) = false := by
        simpa using hn
      have h := serveAfterCache_fst_setOk env (extractKey env.pathname)
        (parseTransformOptions env.params env.accept) [] b
      simpa [serveImage, hk, hn'] using h

/-- C2: when the parsed spec needs a transformation (width, height or
format set), the first store operation of the read handler is the
images-cache probe at the derived key — strictly before any get on the
images store; when it does not (quality and fit alone), no cache operation
ever happens, the only store operation is the original fetch, and a found
original is served straight through. -/
theorem cache_checked_before_fetch (env : Env)
    (hk : ¬ extractKey env.pathname = "") :
    (needsTransformation (parseTransformOptions env.params env.accept) = true →
      ∃ rest, (serveImage env).2 =
        Event.cacheGet (generateCacheKey (extractKey env.pathname)
          (parseTransformOptions env.params env.accept)) :: rest) ∧
    (needsTransformation (parseTransformOptions env.params env.accept) = false →
      (serveImage env).2 = [Event.imageGet (extractKey env.pathname)] ∧
      ∀ blob, env.imageFetch (extractKey env.pathname) = Except.ok (some blob) →
        (serveImage env).1 =
          directResponse (strOr blob.contentType "image/jpeg") blob.bytes) :=
  ⟨fun hn => serveImage_trace_cacheFirst env hk hn,
   fun hn => serveImage_noTransform env hk hn⟩

/-- C2 witness: for `GET /images/uploads/a.jpg?w=100` on a cold cache the
event trace starts with the cache probe at the derived key. -/
theorem cache_checked_before_fetch_witness :
    ∃ rest, (serveImage envT).2 =
      Event.cacheGet (generateCacheKey (extractKey envT.pathname)
        (parseTransformOptions envT.params envT.accept)) :: rest :=
  (cache_checked_before_fetch envT (by decide)).1 (by decide)

lemma serveAfterCache_fetch_fails (env : Env) (key : String)
    (o : TransformOptions) (ev : List Event)
    (h : env.imageFetch key = Except.error () ∨
         env.imageFetch key = Except.ok none) :
    (serveAfterCache env key o ev).1 = notFoundResponse := by
  unfold serveAfterCache
  rcases h with h | h
  · rw [h]
  · rw [h]

lemma serveAfterCache_transform_fails (env : Env) (key : String)
    (o : TransformOptions) (ev : List Event) (blob : Blob)
    (hn : needsTransformation o = true)
    (hi : env.imageFetch key = Except.ok (some blob))
    (hct : strOr blob.contentType "image/jpeg" ∈ TRANSFORMABLE_TYPES)
    (htr : env.transform blob.bytes o (strOr blob.contentType "image/jpeg") =
      Except.error ()) :
    (serveAfterCache env key o ev).1 = notFoundResponse := by
  unfold serveAfterCache
  rw [hi]
  simp [hct, hn, htr]

lemma serveImage_fetch_reached (env : Env)
    (hk : ¬ extractKey env.pathname = "")
    (hmiss : needsTransformation (parseTransformOptions env.params env.accept) = false ∨
      env.cacheFetch (generateCacheKey (extractKey env.pathname)
        (parseTransformOptions env.params env.accept)) = Except.ok none ∨
      env.cacheFetch (generateCacheKey (extractKey env.pathname)
        (parseTransformOptions env.params env.accept)) = Except.error ()) :
    ∃ ev, serveImage env = serveAfterCache env (extractKey env.pathname)
      (parseTransformOptions env.params env.accept) ev := by
  by_cases hn : needsTransformation (parseTransformOptions env.params env.accept) = true
  · rcases hmiss with hm | hm | hm
    · rw [hn] at hm
      cases hm
    · exact ⟨[Event.cacheGet (generateCacheKey (extractKey env.pathname)
        (parseTransformOptions env.params env.accept))],
        by simp [serveImage, hk, hn, hm]⟩
    · exact ⟨[Event.cacheGet (generateCacheKey (extractKey env.pathname)
        (parseTransformOptions env.params env.accept))],
        by simp [serveImage, hk, hn, hm]⟩
  · have hn2 : needsTransformation (parseTransformOptions env.params env.accept) = false := by
      simpa using hn
    exact ⟨[], by simp [serveImage, hk, hn2]⟩

/-- C3: the read handler (a total function — no exception escapes) answers
every request with either a 200 or exactly the 404 `Not found` response; an
empty extracted key yields that 404; no 500 is ever produced; and whenever
the original fetch is reached (no transformation requested, or the cache
probe missed or threw), a thrown images-store error, a missing original,
and a transform failure on a transformable original each produce that same
404 `Not found` response. -/
theorem read_failures_collapse_to_404 (env : Env) :
    ((serveImage env).1.status = 200 ∨ (serveImage env).1 = notFoundResponse) ∧
    (extractKey env.pathname = "" → (serveImage env).1 = notFoundResponse) ∧
    ¬ (serveImage env).1.status = 500 ∧
    (¬ extractKey env.pathname = "" →
      (needsTransformation (parseTransformOptions env.params env.accept) = false ∨
       env.cacheFetch (generateCacheKey (extractKey env.pathname)
         (parseTransformOptions env.params env.accept)) = Except.ok none ∨
       env.cacheFetch (generateCacheKey (extractKey env.pathname)
         (parseTransformOptions env.params env.accept)) = Except.error ()) →
      (env.imageFetch (extractKey env.pathname) = Except.error () →
        (serveImage env).1 = notFoundResponse) ∧
      (env.imageFetch (extractKey env.pathname) = Except.ok none →
        (serveImage env).1 = notFoundResponse) ∧
      (∀ blob, env.imageFetch (extractKey env.pathname) = Except.ok (some blob) →
        needsTransformation (parseTransformOptions env.params env.accept) = true →
        strOr blob.contentType "image/jpeg" ∈ TRANSFORMABLE_TYPES →
        env.transform blob.bytes (parseTransformOptions env.params env.accept)
          (strOr blob.contentType "image/jpeg") = Except.error () →
        (serveImage env).1 = notFoundResponse)) := by
  have h := serveImage_status env
  refine ⟨h, ?_, ?_, ?_⟩
  · intro hk
    simp [serveImage, hk]
  · rcases h with h | h
    · simp [h]
    · rw [h]
      simp [notFoundResponse]
  · intro hk hmiss
    obtain ⟨ev, hserve⟩ := serveImage_fetch_reached env hk hmiss
    refine ⟨?_, ?_, ?_⟩
    · intro hi
      rw [hserve]
      exact serveAfterCache_fetch_fails env _ _ ev (Or.inl hi)
    · intro hi
      rw [hserve]
      exact serveAfterCache_fetch_fails env _ _ ev (Or.inr hi)
    · intro blob hi hn hct htr
      rw [hserve]
      exact serveAfterCache_transform_fails env _ _ ev blob hn hi hct htr

/-- C3 witness: an empty extracted key and a missing original each yield
exactly the 404 `Not found` response. -/
theorem read_failures_collapse_to_404_witness :
    (serveImage envEmptyKey).1 = notFoundResponse ∧
    (serveImage envMissing).1 = notFoundResponse :=
  ⟨(read_failures_collapse_to_404 envEmptyKey).2.1 (by decide),
   ((read_failures_collapse_to_404 envMissing).2.2.2 (by decide)
     (Or.inl (by decide))).2.1 rfl⟩

/-- C9: the client-visible response of a read is identical whether the
fire-and-forget cache write succeeds or fails (it is never awaited and its
outcome is only logged); on the cache-miss transform path the response is
the 200 `X-Cache: MISS` response carrying the transformed bytes, and the
cache write event still occurs with whatever outcome the store gives it. -/
theorem cache_write_invisible (env : Env) (b1 b2 : Bool) :
    (serveImage { env with cacheSetOk := b1 }).1 =
      (serveImage { env with cacheSetOk := b2 }).1 ∧
    (∀ blob tb,
      ¬ extractKey env.pathname = "" →
      needsTransformation (parseTransformOptions env.params env.accept) = true →
      env.cacheFetch (generateCacheKey (extractKey env.pathname)
        (parseTransformOptions env.params env.accept)) = Except.ok none →
      env.imageFetch (extractKey env.pathname) = Except.ok (some blob) →
      strOr blob.contentType "image/jpeg" ∈ TRANSFORMABLE_TYPES →
      env.transform blob.bytes (parseTransformOptions env.params env.accept)
        (strOr blob.contentType "image/jpeg") = Except.ok tb →
      (serveImage env).1 =
        missResponse (resolveOutputContentType
          (resolveOutputFormat (parseTransformOptions env.params env.accept)
            (strOr blob.contentType "image/jpeg"))
          (strOr blob.contentType "image/jpeg")) tb ∧
      Event.cacheSet (generateCacheKey (extractKey env.pathname)
        (parseTransformOptions env.params env.accept)) env.cacheSetOk ∈
          (serveImage env).2) := by
  constructor
  · rw [serveImage_fst_setOk env b1, serveImage_fst_setOk env b2]
  · intro blob tb hk hn hc hi hct htr
    have hserve : serveImage env = serveAfterCache env (extractKey env.pathname)
        (parseTransformOptions env.params env.accept)
        [Event.cacheGet (generateCacheKey (extractKey env.pathname)
          (parseTransformOptions env.params env.accept))] := by
      simp [serveImage, hk, hn, hc]
    have hm := serveAfterCache_miss env (extractKey env.pathname)
      (parseTransformOptions env.params env.accept)
      [Event.cacheGet (generateCacheKey (extractKey env.pathname)
        (parseTransformOptions env.params env.accept))] blob tb hn hi hct htr
    constructor
    · rw [hserve]
      exact hm.1
    · rw [hserve, hm.2]
      simp

/-- C9 witness: on the concrete miss-path environment the response is the
same with a succeeding and with a failing cache write, and equals the 200
MISS response carrying the transformed bytes. -/
theorem cache_write_invisible_witness :
    (serveImage { envT with cacheSetOk := true }).1 =
      (serveImage { envT with cacheSetOk := false }).1 ∧
    (serveImage envT).1 = missResponse "image/jpeg" [9] := by
  have h := cache_write_invisible envT true false
  refine ⟨h.1, ?_⟩
  have h2 := (h.2 blob7 [9] (by decide) (by decide) rfl rfl (by decide) rfl).1
  have e : resolveOutputContentType
      (resolveOutputFormat (parseTransformOptions envT.params envT.accept)
        (strOr blob7.contentType "image/jpeg"))
      (strOr blob7.contentType "image/jpeg") = "image/jpeg" := by decide
  rw [e] at h2
  exact h2


lemma resizeInside_bounds (ow oh : Nat) (hw : 0 < ow) (hh : 0 < oh) :
    (resizeInsideDims ow oh 2000 2000).1 ≤ ow ∧
    (resizeInsideDims ow oh 2000 2000).2 ≤ oh ∧
    (resizeInsideDims ow oh 2000 2000).1 ≤ 2000 ∧
    (resizeInsideDims ow oh 2000 2000).2 ≤ 2000 := by
  unfold resizeInsideDims
  by_cases h1 : ow ≤ 2000 ∧ oh ≤ 2000
  · rw [if_pos h1]
    exact ⟨le_refl ow, le_refl oh, h1.1, h1.2⟩
  · by_cases h2 : oh * 2000 ≤ ow * 2000
    · have how : 2000 < ow := by omega
      have hd1 : oh * 2000 / ow ≤ oh :=
        calc oh * 2000 / ow ≤ oh * ow / ow :=
              Nat.div_le_div_right (Nat.mul_le_mul_left oh (le_of_lt how))
          _ = oh := Nat.mul_div_cancel oh hw
      have hd2 : oh * 2000 / ow ≤ 2000 :=
        calc oh * 2000 / ow ≤ ow * 2000 / ow :=
              Nat.div_le_div_right (by omega)
          _ = 2000 := Nat.mul_div_cancel_left 2000 hw
      rw [if_neg h1, if_pos h2]
      exact ⟨le_of_lt how, hd1, le_refl 2000, hd2⟩
    · have hoh : 2000 < oh := by omega
      have hd1 : ow * 2000 / oh ≤ ow :=
        calc ow * 2000 / oh ≤ ow * oh / oh :=
              Nat.div_le_div_right (Nat.mul_le_mul_left ow (le_of_lt hoh))
          _ = ow := Nat.mul_div_cancel ow hh
      have hd2 : ow * 2000 / oh ≤ 2000 :=
        calc ow * 2000 / oh ≤ oh * 2000 / oh :=
              Nat.div_le_div_right (by omega)
          _ = 2000 := Nat.mul_div_cancel_left 2000 hh
      rw [if_neg h1, if_neg h2]
      exact ⟨hd1, le_of_lt hoh, hd2, le_refl 2000⟩

/-- C6: a validated upload is stored exactly once; a non-GIF image is
stored as the sharp pipeline `resize(2000, 2000, inside, withoutEnlargement)
.webp(85)` of its bytes (which, per the spec-modelled resize semantics,
fits within 2000px without upscaling) with extension `webp` and content
type `image/webp`; a GIF or video is stored with its bytes unmodified, its
own content type, and the extension derived from the filename, falling
back to `mp4` (video) or `jpg` (image) when the extracted extension is
empty. -/
theorem upload_image_webp_video_raw (req : UploadReq) (file : UploadFile)
    (hm : req.method = "POST") (hf : req.file = some file)
    (ht : file.type ∈ ALLOWED_TYPES)
    (hs : file.size ≤ (if file.type ∈ ALLOWED_VIDEO_TYPES
                       then MAX_VIDEO_SIZE else MAX_IMAGE_SIZE)) :
    ∃ w : StoreWrite, (uploadHandler req).2 = [w] ∧
      (uploadHandler req).1.status = 201 ∧
      w.originalName = file.name ∧
      ((file.type ∈ ALLOWED_IMAGE_TYPES ∧ ¬ file.type = "image/gif") →
        w.content = StoredContent.optimizedWebp file.bytes 2000 85 ∧
        w.contentType = "image/webp" ∧
        w.key = "uploads/" ++ toString req.timestamp ++ "-" ++ req.randomId ++ ".webp") ∧
      ((¬ file.type ∈ ALLOWED_IMAGE_TYPES ∨ file.type = "image/gif") →
        w.content = StoredContent.raw file.bytes ∧
        w.contentType = file.type ∧
        w.key = "uploads/" ++ toString req.timestamp ++ "-" ++ req.randomId ++ "." ++
          derivedExt file.name (ALLOWED_VIDEO_TYPES.contains file.type)) ∧
      (∀ nm iv, (jsSplit nm '.').getLastD "" = "" →
        derivedExt nm iv = if iv then "mp4" else "jpg") ∧
      (∀ ow oh, 0 < ow → 0 < oh →
        (resizeInsideDims ow oh 2000 2000).1 ≤ ow ∧
        (resizeInsideDims ow oh 2000 2000).2 ≤ oh ∧
        (resizeInsideDims ow oh 2000 2000).1 ≤ 2000 ∧
        (resizeInsideDims ow oh 2000 2000).2 ≤ 2000) := by
  have hsz : ¬ (if file.type ∈ ALLOWED_VIDEO_TYPES
      then MAX_VIDEO_SIZE else MAX_IMAGE_SIZE) < file.size := not_lt.mpr hs
  by_cases himg : file.type ∈ ALLOWED_IMAGE_TYPES ∧ ¬ file.type = "image/gif"
  · have hred : uploadHandler req =
        ({ status := 201,
           body := UploadBody.success
             ("/images/" ++ ("uploads/" ++ toString req.timestamp ++ "-" ++
               req.randomId ++ "." ++ "webp"))
             ("uploads/" ++ toString req.timestamp ++ "-" ++ req.randomId ++ "." ++ "webp") },
         [{ key := "uploads/" ++ toString req.timestamp ++ "-" ++ req.randomId ++ "." ++ "webp",
            content := StoredContent.optimizedWebp file.bytes MAX_DIMENSION UPLOAD_QUALITY,
            contentType := "image/webp", originalName := file.name }]) := by
      simp [uploadHandler, hm, hf, ht, hsz, himg]
    rw [hred]
    refine ⟨_, rfl, rfl, rfl, ?_, ?_, ?_, ?_⟩
    · intro _
      refine ⟨rfl, rfl, ?_⟩
      simp [String.append_assoc]
    · rintro (hcon | hcon)
      · exact absurd himg.1 hcon
      · exact absurd hcon himg.2
    · intro nm iv he
      have he2 : (jsSplit nm '.').getLast?.getD "" = "" := by
        simpa using he
      simp [derivedExt, he2]
    · intro ow oh hw hh
      exact resizeInside_bounds ow oh hw hh
  · have hred : uploadHandler req =
        ({ status := 201,
           body := UploadBody.success
             ("/images/" ++ ("uploads/" ++ toString req.timestamp ++ "-" ++
               req.randomId ++ "." ++
               derivedExt file.name (ALLOWED_VIDEO_TYPES.contains file.type)))
             ("uploads/" ++ toString req.timestamp ++ "-" ++ req.randomId ++ "." ++
               derivedExt file.name (ALLOWED_VIDEO_TYPES.contains file.type)) },
         [{ key := "uploads/" ++ toString req.timestamp ++ "-" ++ req.randomId ++ "." ++
              derivedExt file.name (ALLOWED_VIDEO_TYPES.contains file.type),
            content := StoredContent.raw file.bytes,
            contentType := file.type, originalName := file.name }]) := by
      simp [uploadHandler, hm, hf, ht, hsz, himg]
    rw [hred]
    refine ⟨_, rfl, rfl, rfl, ?_, ?_, ?_, ?_⟩
    · intro hcon
      exact absurd hcon himg
    · intro _
      exact ⟨rfl, rfl, rfl⟩
    · intro nm iv he
      have he2 : (jsSplit nm '.').getLast?.getD "" = "" := by
        simpa using he
      simp [derivedExt, he2]
    · intro ow oh hw hh
      exact resizeInside_bounds ow oh hw hh

/-- C6 witness: uploading a small PNG stores exactly one object, holding
the webp-optimized pipeline output with content type `image/webp`. -/
theorem upload_image_webp_video_raw_witness :
    ∃ w : StoreWrite, (uploadHandler reqP).2 = [w] ∧
      w.content = StoredContent.optimizedWebp [1, 2, 3] 2000 85 ∧
      w.contentType = "image/webp" := by
  obtain ⟨w, hw, -, -, himg, -, -, -⟩ :=
    upload_image_webp_video_raw reqP fileP rfl rfl (by decide) (by decide)
  obtain ⟨hc, hct, -⟩ := himg ⟨by decide, by decide⟩
  exact ⟨w, hw, hc, hct⟩

/-- C7: an upload whose MIME type is outside the allow-list, or whose size
exceeds the type-specific ceiling (5 MB images, 100 MB videos), is answered
400 with a JSON error message and nothing is written to the store. -/
theorem upload_rejects_invalid (req : UploadReq) (file : UploadFile)
    (hm : req.method = "POST") (hf : req.file = some file)
    (hbad : ¬ file.type ∈ ALLOWED_TYPES ∨
      (if file.type ∈ ALLOWED_VIDEO_TYPES
       then MAX_VIDEO_SIZE else MAX_IMAGE_SIZE) < file.size) :
    (uploadHandler req).1.status = 400 ∧
    (∃ msg, (uploadHandler req).1.body = UploadBody.errorMsg msg) ∧
    (uploadHandler req).2 = [] := by
  rcases hbad with hb | hb
  · have hred : uploadHandler req =
        ({ status := 400,
           body := UploadBody.errorMsg
             "Invalid file type. Allowed: JPEG, PNG, GIF, WebP, MP4, WebM, MOV" }, []) := by
      simp [uploadHandler, hm, hf, hb]
    rw [hred]
    exact ⟨rfl, ⟨_, rfl⟩, rfl⟩
  · by_cases hc : file.type ∈ ALLOWED_TYPES
    · have hred : uploadHandler req =
          ({ status := 400,
             body := UploadBody.errorMsg
               (if file.type ∈ ALLOWED_VIDEO_TYPES
                then "File too large. Maximum size is 100MB"
                else "File too large. Maximum size is 5MB") }, []) := by
        simp [uploadHandler, hm, hf, hc, hb]
      rw [hred]
      exact ⟨rfl, ⟨_, rfl⟩, rfl⟩
    · have hred : uploadHandler req =
          ({ status := 400,
             body := UploadBody.errorMsg
               "Invalid file type. Allowed: JPEG, PNG, GIF, WebP, MP4, WebM, MOV" }, []) := by
        simp [uploadHandler, hm, hf, hc]
      rw [hred]
      exact ⟨rfl, ⟨_, rfl⟩, rfl⟩

/-- C7 witness: uploading an `application/pdf` file returns 400 with an
error body and writes nothing. -/
theorem upload_rejects_invalid_witness :
    (uploadHandler reqPdf).1.status = 400 ∧
    (∃ msg, (uploadHandler reqPdf).1.body = UploadBody.errorMsg msg) ∧
    (uploadHandler reqPdf).2 = [] :=
  upload_rejects_invalid reqPdf filePdf rfl rfl (Or.inl (by decide))
